import Mathlib

/-!
Verification of the gaming-laptops-store catalog backend
(`products/models.py`, `products/serializers.py`, `products/views.py`,
`products/filters.py`) via a shallow embedding.  Machine integers are
modelled as `Int`/`Nat`; the JSON specification maps as an inductive
`Json` type; the database as an explicit `Store` record threaded through
a state-plus-error monad, with `@transaction.atomic` modelled as a
snapshot/rollback combinator.
-/

namespace GamingStore

/-- JSON values, as produced by deserializing a request payload and as
stored in the `specs` JSON column of `BaseProduct`. -/
inductive Json where
  | null : Json
  | bool (b : Bool) : Json
  | num (n : Int) : Json
  | str (s : String) : Json
  | arr (elems : List Json) : Json
  | obj (entries : List (String × Json)) : Json

/-- Python `isinstance(value, dict)`: true exactly for JSON objects. -/
def Json.isObj : Json → Bool
  | .obj _ => true
  | _ => false

/-- Key lookup in a JSON object; anything other than an object has no keys. -/
def Json.lookupKey : Json → String → Option Json
  | .obj entries, k => entries.lookup k
  | _, _ => none

/-- Resolution of a nested key path (Django `specs__a__b` key transforms):
descend through objects key by key; a missing step yields `none`. -/
def Json.lookupPath : Json → List String → Option Json
  | j, [] => some j
  | j, k :: ks =>
    match j.lookupKey k with
    | some v => Json.lookupPath v ks
    | none => none

/-- ASCII lowercase conversion of one character (Python `str.lower` /
SQL `UPPER`-insensitive comparison, restricted to ASCII letters). -/
def lowerChar (c : Char) : Char :=
  match c with
  | 'A' => 'a' | 'B' => 'b' | 'C' => 'c' | 'D' => 'd' | 'E' => 'e'
  | 'F' => 'f' | 'G' => 'g' | 'H' => 'h' | 'I' => 'i' | 'J' => 'j'
  | 'K' => 'k' | 'L' => 'l' | 'M' => 'm' | 'N' => 'n' | 'O' => 'o'
  | 'P' => 'p' | 'Q' => 'q' | 'R' => 'r' | 'S' => 's' | 'T' => 't'
  | 'U' => 'u' | 'V' => 'v' | 'W' => 'w' | 'X' => 'x' | 'Y' => 'y'
  | 'Z' => 'z'
  | c => c

/-- The first list leads the second: character-wise prefix test. -/
def leadsList : List Char → List Char → Bool
  | [], _ => true
  | _ :: _, [] => false
  | a :: as, b :: bs => a == b && leadsList as bs

/-- `needle` occurs as a contiguous substring of `hay` (character lists). -/
def containsSublist (needle hay : List Char) : Bool :=
  hay.tails.any (fun t => leadsList needle t)

/-- Lowercased copy of a string (ASCII). -/
def lowerStr (s : String) : String := String.mk (s.data.map lowerChar)

/-- Case-insensitive substring containment: the semantics of the Django
`icontains` lookup (ASCII). -/
def icontains (hay needle : String) : Bool :=
  containsSublist (lowerStr needle).data (lowerStr hay).data

/-- Text rendering of a JSON value, as yielded by the database engine
when a key transform is compared as text (`->>`): strings unquoted,
numbers and booleans in their literal form, containers as JSON text. -/
def Json.text : Json → String
  | .null => "null"
  | .bool b => if b then "true" else "false"
  | .num n => toString n
  | .str s => s
  | .arr elems =>
    "[" ++ String.intercalate ", " (elems.attach.map (fun x => Json.text x.val)) ++ "]"
  | .obj entries =>
    "\x7b" ++
      String.intercalate ", "
        (entries.attach.map (fun x => "\x22" ++ x.val.1 ++ "\x22: " ++ Json.text x.val.2)) ++
      "\x7d"
decreasing_by
  · have h := List.sizeOf_lt_of_mem x.property
    have h3 : sizeOf (Json.arr elems) = 1 + sizeOf elems := by simp
    omega
  · have h := List.sizeOf_lt_of_mem x.property
    have h2 : sizeOf x.val = 1 + sizeOf x.val.1 + sizeOf x.val.2 := by
      obtain ⟨⟨a, b⟩, hx⟩ := x
      simp
    have h3 : sizeOf (Json.obj entries) = 1 + sizeOf entries := by simp
    omega

/-! ### `django.utils.text.slugify`, ASCII fragment

```python
value = unicodedata.normalize("NFKD", value).encode("ascii", "ignore").decode("ascii")
value = re.sub(r"[^\w\s-]", "", value.lower())
return re.sub(r"[-\s]+", "-", value).strip("-_")
```

The NFKD/ASCII-encode step is the identity on ASCII input, which is the
fragment embedded here. -/

/-- ASCII alphanumeric character (`[a-zA-Z0-9]`). -/
def isAsciiAlnum (c : Char) : Bool :=
  ('a' ≤ c && c ≤ 'z') || ('A' ≤ c && c ≤ 'Z') || ('0' ≤ c && c ≤ '9')

/-- Python regex `\w` over lowercased ASCII text: alphanumeric or underscore. -/
def isWordCh (c : Char) : Bool := isAsciiAlnum c || c = '_'

/-- Python regex `\s` (ASCII whitespace). -/
def isSpaceCh (c : Char) : Bool :=
  c = ' ' || c = '\t' || c = '\n' || c = '\r' || c = '\x0b' || c = '\x0c'

/-- Characters surviving `re.sub(r"[^\w\s-]", "", ·)`. -/
def keepCh (c : Char) : Bool := isWordCh c || isSpaceCh c || c = '-'

/-- Characters collapsed by `re.sub(r"[-\s]+", "-", ·)`. -/
def isDashSpace (c : Char) : Bool := c = '-' || isSpaceCh c

/-- Characters removed at both ends by `.strip("-_")`. -/
def isStripCh (c : Char) : Bool := c = '-' || c = '_'

/-- Helper for `collapseRuns`: `inRun` records whether the previous
character belonged to a hyphen/whitespace run already emitted as `-`. -/
def collapseAux : Bool → List Char → List Char
  | _, [] => []
  | inRun, c :: rest =>
    if isDashSpace c then
      if inRun then collapseAux true rest else '-' :: collapseAux true rest
    else c :: collapseAux false rest

/-- `re.sub(r"[-\s]+", "-", ·)`: every maximal run of hyphens/whitespace
becomes a single hyphen. -/
def collapseRuns (l : List Char) : List Char := collapseAux false l

/-- Python `str.strip(chars)`: drop the matching characters from both ends. -/
def stripBoth (p : Char → Bool) (l : List Char) : List Char :=
  ((l.dropWhile p).reverse.dropWhile p).reverse

/-- `django.utils.text.slugify` on a character list. -/
def slugifyList (l : List Char) : List Char :=
  stripBoth isStripCh (collapseRuns ((l.map lowerChar).filter keepCh))

/-- `django.utils.text.slugify` (ASCII fragment). -/
def slugify (s : String) : String := String.mk (slugifyList s.data)

/-! ### Data model (`products/models.py`) -/

/-- `Brand` row: name (unique), slug (auto-derived), `active` from `BaseModel`. -/
structure Brand where
  id : Nat
  name : String
  slug : String
  active : Bool
deriving DecidableEq

/-- `Category` row. -/
structure Category where
  id : Nat
  name : String
  slug : String
  description : Option String
  active : Bool
deriving DecidableEq

/-- `BaseProduct` row.  `categoryIds` models the `categories`
many-to-many link set; `specs` is the JSON column. -/
structure BaseProduct where
  id : Nat
  model_name : String
  slug : String
  long_description : String
  brandId : Nat
  categoryIds : List Nat
  specs : Json
  userLastModified : Option Nat
  active : Bool

/-- `ProductVariant` row.  The published flag is declared in the model
as `is_publishied` (sic) — the misspelling is part of the source. -/
structure ProductVariant where
  id : Nat
  base_productId : Nat
  price : Int
  description : Option String
  condition : String
  stock_status : String
  is_publishied : Bool
  userLastModified : Option Nat
  active : Bool
deriving DecidableEq

/-- `Image` row.  The foreign key is *declared under the name
`product_variant`* but its target model is `BaseProduct`
(`models.ForeignKey(BaseProduct, ..., related_name="images")`). -/
structure Image where
  id : Nat
  product_variant : Nat
  imagen : String
  alt_text : String
  active : Bool
deriving DecidableEq

/-- The entity store: all persisted rows plus a fresh-id counter. -/
structure Store where
  brands : List Brand
  categories : List Category
  products : List BaseProduct
  variants : List ProductVariant
  images : List Image
  nextId : Nat

/-- Errors surfaced by the ORM / serialization layer. -/
inductive DbError where
  | validationError (msg : String)
  | typeError (msg : String)
  | fieldError (msg : String)
  | attributeError (msg : String)
  | improperlyConfigured (msg : String)
  | integrityError (msg : String)
  | notFound
deriving DecidableEq, Repr

/-- Database actions: state-threading with Python-exception-style
errors.  An error does **not** undo earlier writes — uncommitted state
changes persist unless a surrounding `transaction.atomic` rolls them
back. -/
def M (A : Type) : Type := Store → Except DbError A × Store

instance : Monad M where
  pure a := fun st => (Except.ok a, st)
  bind x f := fun st =>
    match x st with
    | (Except.ok a, st2) => f a st2
    | (Except.error e, st2) => (Except.error e, st2)

/-- Read the current store. -/
def getStore : M Store := fun st => (Except.ok st, st)

/-- Replace the current store. -/
def setStore (st : Store) : M Unit := fun _ => (Except.ok (), st)

/-- Raise a Python exception / ORM error. -/
def throwDb {A : Type} (e : DbError) : M A := fun st => (Except.error e, st)

/-- `@transaction.atomic`: run the body; on any error restore the
snapshot taken at entry, so no partial write survives. -/
def atomic {A : Type} (body : M A) : M A := fun st =>
  match body st with
  | (Except.ok a, st2) => (Except.ok a, st2)
  | (Except.error e, _) => (Except.error e, st)

/-! ### Model `save()` overrides and ORM write primitives -/

/-- `Brand.save`: derive the slug from the name when it is absent
(`if not self.slug: self.slug = slugify(self.name)`). -/
def Brand.deriveSlug (b : Brand) : Brand :=
  if b.slug = "" then { b with slug := slugify b.name } else b

/-- `Category.save`: same slug derivation as `Brand.save`. -/
def Category.deriveSlug (c : Category) : Category :=
  if c.slug = "" then { c with slug := slugify c.name } else c

/-- `BaseProduct.save`: when no slug is present it is derived as
`slugify(f"{self.brand.name}-{self.model_name}")`. -/
def BaseProduct.deriveSlug (brandName : String) (p : BaseProduct) : BaseProduct :=
  if p.slug = "" then { p with slug := slugify (brandName ++ "-" ++ p.model_name) } else p

/-- Name of the brand a product row points to (`self.brand.name`). -/
def Store.brandNameOf (st : Store) (p : BaseProduct) : String :=
  ((st.brands.find? (fun b => b.id == p.brandId)).map Brand.name).getD ""

/-- UPDATE of an existing brand row (`instance.save()` on a fetched
brand): runs the `save` override, then enforces the unique constraint
on `slug` against every *other* row. -/
def Store.brandSaveExisting (st : Store) (b : Brand) : Except DbError Store :=
  if st.brands.any (fun x => x.id != b.deriveSlug.id && x.slug == b.deriveSlug.slug) then
    Except.error (DbError.integrityError "duplicate brand slug")
  else
    Except.ok { st with
      brands := st.brands.map (fun x => if x.id == b.deriveSlug.id then b.deriveSlug else x) }

/-- UPDATE of an existing category row. -/
def Store.categorySaveExisting (st : Store) (c : Category) : Except DbError Store :=
  if st.categories.any (fun x => x.id != c.deriveSlug.id && x.slug == c.deriveSlug.slug) then
    Except.error (DbError.integrityError "duplicate category slug")
  else
    Except.ok { st with
      categories :=
        st.categories.map (fun x => if x.id == c.deriveSlug.id then c.deriveSlug else x) }

/-- UPDATE of an existing base-product row. -/
def Store.productSaveExisting (st : Store) (p : BaseProduct) : Except DbError Store :=
  if st.products.any (fun x => x.id != (p.deriveSlug (st.brandNameOf p)).id &&
      x.slug == (p.deriveSlug (st.brandNameOf p)).slug) then
    Except.error (DbError.integrityError "duplicate product slug")
  else
    Except.ok { st with
      products := st.products.map (fun x =>
        if x.id == (p.deriveSlug (st.brandNameOf p)).id then p.deriveSlug (st.brandNameOf p)
        else x) }

/-- UPDATE of an existing variant row (no overridden `save`, no unique
columns beyond the primary key). -/
def Store.variantSaveExisting (st : Store) (v : ProductVariant) : Store :=
  { st with variants := st.variants.map (fun x => if x.id == v.id then v else x) }

/-- The keyword arguments `Image(...)` accepts: exactly the declared
field names of the `Image` model.  The foreign key is declared as
`product_variant` (even though it targets `BaseProduct`); there is no
field called `base_product`. -/
def imageModelKwargNames : List String :=
  ["id", "product_variant", "imagen", "alt_text", "active"]

/-- `Image.objects.create(<fkKw>=..., imagen=..., alt_text=...)`.
Passing a keyword that is not a declared field raises
`TypeError: Image() got unexpected keyword arguments`. -/
def imageObjectsCreate (fkKw : String) (fkVal : Nat) (imagen alt_text : String) : M Image := do
  if fkKw ∈ imageModelKwargNames then
    let st ← getStore
    let img : Image :=
      { id := st.nextId, product_variant := fkVal, imagen := imagen,
        alt_text := alt_text, active := true }
    setStore { st with images := st.images ++ [img], nextId := st.nextId + 1 }
    pure img
  else
    throwDb (DbError.typeError ("Image() got unexpected keyword arguments: " ++ fkKw))

/-- `Image.objects.filter(id__in=ids, <fkKw>=instance).delete()`.
A lookup keyword that is not a field of `Image` raises
`FieldError: Cannot resolve keyword ... into field`. -/
def imageObjectsFilterDelete (ids : List Nat) (fkKw : String) (fkVal : Nat) : M Unit := do
  if fkKw ∈ imageModelKwargNames then
    let st ← getStore
    setStore { st with
      images := st.images.filter (fun i => !(i.id ∈ ids && i.product_variant == fkVal)) }
  else
    throwDb (DbError.fieldError ("Cannot resolve keyword " ++ fkKw ++ " into field"))

/-- `BaseProduct.objects.create(...)`: build the row, run the `save`
override (slug derivation), then INSERT subject to the unique
constraint on `slug`. -/
def baseProductObjectsCreate (model_name long_description : String) (brand : Brand)
    (specs : Json) (user : Nat) : M BaseProduct := do
  let st ← getStore
  let p0 : BaseProduct :=
    { id := st.nextId, model_name := model_name, slug := "",
      long_description := long_description, brandId := brand.id, categoryIds := [],
      specs := specs, userLastModified := some user, active := true }
  let p := p0.deriveSlug brand.name
  if st.products.any (fun x => x.slug == p.slug) then
    throwDb (DbError.integrityError "duplicate product slug")
  else
    setStore { st with products := st.products ++ [p], nextId := st.nextId + 1 }
    pure p

/-- `base_product.categories.set(ids)` on a row already in the store. -/
def categoriesSet (productId : Nat) (ids : List Nat) : M Unit := do
  let st ← getStore
  setStore { st with
    products := st.products.map (fun q =>
      if q.id == productId then { q with categoryIds := ids } else q) }

/-- Lift a pure `Except` computation into the database monad. -/
def liftE {A : Type} (x : Except DbError A) : M A := fun st => (x, st)

/-! ### Serializer field construction (`rest_framework` `ModelSerializer`)

`is_valid()` / `.data` first build the fields of the serializer: every name in
`Meta.fields` must either be a field declared on the serializer class or
an attribute of the model, else `ImproperlyConfigured` is raised. -/

/-- Attributes resolvable on the `Brand` model. -/
def brandModelAttrNames : List String := ["id", "name", "slug", "active"]

/-- Attributes resolvable on the `Category` model. -/
def categoryModelAttrNames : List String :=
  ["id", "name", "slug", "description", "active"]

/-- Attributes resolvable on the `BaseProduct` model (fields, the
`categories` many-to-many, and the `images` reverse relation declared by
`related_name="images"` on `Image.product_variant`). -/
def baseProductModelAttrNames : List String :=
  ["id", "model_name", "slug", "long_description", "brand", "categories", "specs",
   "user_last_modified", "creation_date", "update_date", "active", "images"]

/-- Attributes resolvable on the `ProductVariant` model.  The published
flag exists only under the misspelled name `is_publishied`. -/
def productVariantModelAttrNames : List String :=
  ["id", "base_product", "price", "description", "condition", "stock_status",
   "is_publishied", "user_last_modified", "creation_date", "update_date", "active"]

/-- Build the fields of a `ModelSerializer`: each `Meta.fields` entry must be
a declared serializer field or a model attribute. -/
def buildModelSerializerFields (declared metaFields modelAttrs : List String) :
    Except DbError Unit :=
  if metaFields.all (fun f => declared.contains f || modelAttrs.contains f) then
    Except.ok ()
  else
    Except.error (DbError.improperlyConfigured "Field name is not valid for model")

/-- `BrandSerializer.Meta.fields`. -/
def brandSerializerMetaFields : List String := ["id", "name", "slug", "active"]

/-- `CategorySerializer.Meta.fields`. -/
def categorySerializerMetaFields : List String :=
  ["id", "name", "slug", "description", "active"]

/-- `BaseProductSerializer.Meta.fields`. -/
def baseProductSerializerMetaFields : List String :=
  ["id", "model_name", "slug", "long_description", "brand", "categories", "specs",
   "active", "creation_date", "update_date", "images"]

/-- Fields declared on `BaseProductSerializer` itself. -/
def baseProductSerializerDeclared : List String := ["brand", "categories", "images"]

/-- `ProductVariantSerializer.Meta.fields` — note `is_published`. -/
def productVariantSerializerMetaFields : List String :=
  ["id", "base_product", "price", "condition", "condition_display", "stock_status",
   "stock_status_display", "is_published", "active", "creation_date", "update_date"]

/-- Fields declared on `ProductVariantSerializer` itself. -/
def productVariantSerializerDeclared : List String :=
  ["base_product", "condition_display", "stock_status_display"]

/-! ### Activate / deactivate / publish request handlers (`products/views.py`) -/

/-- HTTP-level outcome of a toggle handler. -/
inductive ApiResp where
  | ok (msg : String)
  | badRequest (msg : String)
  | notFoundResp
  | serverError (e : DbError)
deriving DecidableEq, Repr

/-- `BrandActivateView.post`. -/
def brandActivateView (st : Store) (pk : Nat) : ApiResp × Store :=
  match st.brands.find? (fun b => b.id == pk) with
  | none => (ApiResp.notFoundResp, st)
  | some b =>
    if b.active then (ApiResp.badRequest "Brand is already active", st)
    else
      match st.brandSaveExisting { b with active := true } with
      | Except.ok st2 =>
        match buildModelSerializerFields [] brandSerializerMetaFields brandModelAttrNames with
        | Except.ok _ => (ApiResp.ok "Brand activated successfully", st2)
        | Except.error e => (ApiResp.serverError e, st2)
      | Except.error e => (ApiResp.serverError e, st)

/-- `BrandDeactivateView.post`. -/
def brandDeactivateView (st : Store) (pk : Nat) : ApiResp × Store :=
  match st.brands.find? (fun b => b.id == pk) with
  | none => (ApiResp.notFoundResp, st)
  | some b =>
    if !b.active then (ApiResp.badRequest "Brand is already inactive", st)
    else
      match st.brandSaveExisting { b with active := false } with
      | Except.ok st2 =>
        match buildModelSerializerFields [] brandSerializerMetaFields brandModelAttrNames with
        | Except.ok _ => (ApiResp.ok "Brand deactivated successfully", st2)
        | Except.error e => (ApiResp.serverError e, st2)
      | Except.error e => (ApiResp.serverError e, st)

/-- `CategoryActivateView.post`. -/
def categoryActivateView (st : Store) (pk : Nat) : ApiResp × Store :=
  match st.categories.find? (fun c => c.id == pk) with
  | none => (ApiResp.notFoundResp, st)
  | some c =>
    if c.active then (ApiResp.badRequest "Category is already active", st)
    else
      match st.categorySaveExisting { c with active := true } with
      | Except.ok st2 =>
        match buildModelSerializerFields [] categorySerializerMetaFields categoryModelAttrNames with
        | Except.ok _ => (ApiResp.ok "Category activated successfully", st2)
        | Except.error e => (ApiResp.serverError e, st2)
      | Except.error e => (ApiResp.serverError e, st)

/-- `CategoryDeactivateView.post`. -/
def categoryDeactivateView (st : Store) (pk : Nat) : ApiResp × Store :=
  match st.categories.find? (fun c => c.id == pk) with
  | none => (ApiResp.notFoundResp, st)
  | some c =>
    if !c.active then (ApiResp.badRequest "Category is already inactive", st)
    else
      match st.categorySaveExisting { c with active := false } with
      | Except.ok st2 =>
        match buildModelSerializerFields [] categorySerializerMetaFields categoryModelAttrNames with
        | Except.ok _ => (ApiResp.ok "Category deactivated successfully", st2)
        | Except.error e => (ApiResp.serverError e, st2)
      | Except.error e => (ApiResp.serverError e, st)

/-- `BaseProductActivateView.post`. -/
def baseProductActivateView (st : Store) (pk : Nat) : ApiResp × Store :=
  match st.products.find? (fun p => p.id == pk) with
  | none => (ApiResp.notFoundResp, st)
  | some p =>
    if p.active then (ApiResp.badRequest "Product is already active", st)
    else
      match st.productSaveExisting { p with active := true } with
      | Except.ok st2 =>
        match buildModelSerializerFields baseProductSerializerDeclared
            baseProductSerializerMetaFields baseProductModelAttrNames with
        | Except.ok _ => (ApiResp.ok "Product activated successfully", st2)
        | Except.error e => (ApiResp.serverError e, st2)
      | Except.error e => (ApiResp.serverError e, st)

/-- `BaseProductDeactivateView.post`. -/
def baseProductDeactivateView (st : Store) (pk : Nat) : ApiResp × Store :=
  match st.products.find? (fun p => p.id == pk) with
  | none => (ApiResp.notFoundResp, st)
  | some p =>
    if !p.active then (ApiResp.badRequest "Product is already inactive", st)
    else
      match st.productSaveExisting { p with active := false } with
      | Except.ok st2 =>
        match buildModelSerializerFields baseProductSerializerDeclared
            baseProductSerializerMetaFields baseProductModelAttrNames with
        | Except.ok _ => (ApiResp.ok "Product deactivated successfully", st2)
        | Except.error e => (ApiResp.serverError e, st2)
      | Except.error e => (ApiResp.serverError e, st)

/-- `ProductVariantActivateView.post`.  The `active` check and the save
use real model fields; serializing the success response then builds
`ProductVariantSerializer`, which references `is_published`. -/
def productVariantActivateView (st : Store) (pk : Nat) : ApiResp × Store :=
  match st.variants.find? (fun v => v.id == pk) with
  | none => (ApiResp.notFoundResp, st)
  | some v =>
    if v.active then (ApiResp.badRequest "Product variant is already active", st)
    else
      let st2 := st.variantSaveExisting { v with active := true }
      match buildModelSerializerFields productVariantSerializerDeclared
          productVariantSerializerMetaFields productVariantModelAttrNames with
      | Except.ok _ => (ApiResp.ok "Product variant activated successfully", st2)
      | Except.error e => (ApiResp.serverError e, st2)

/-- `ProductVariantDeactivateView.post`. -/
def productVariantDeactivateView (st : Store) (pk : Nat) : ApiResp × Store :=
  match st.variants.find? (fun v => v.id == pk) with
  | none => (ApiResp.notFoundResp, st)
  | some v =>
    if !v.active then (ApiResp.badRequest "Product variant is already inactive", st)
    else
      let st2 := st.variantSaveExisting { v with active := false }
      match buildModelSerializerFields productVariantSerializerDeclared
          productVariantSerializerMetaFields productVariantModelAttrNames with
      | Except.ok _ => (ApiResp.ok "Product variant deactivated successfully", st2)
      | Except.error e => (ApiResp.serverError e, st2)

/-- Python attribute read on a variant instance (`variant.<name>` for a
boolean attribute): only declared model fields exist as attributes; any
other name raises `AttributeError`. -/
def ProductVariant.getattrBool (v : ProductVariant) (name : String) : Except DbError Bool :=
  if name == "is_publishied" then Except.ok v.is_publishied
  else if name == "active" then Except.ok v.active
  else Except.error (DbError.attributeError name)

/-- `ProductVariantPublishView.post`: reads `variant.is_published`,
conflicts when already published, else sets the attribute and saves.
Setting `variant.is_published` creates a plain Python attribute — the
subsequent `save()` persists only declared model fields, so the stored
`is_publishied` column would keep its old value. -/
def productVariantPublishView (st : Store) (pk : Nat) : ApiResp × Store :=
  match st.variants.find? (fun v => v.id == pk) with
  | none => (ApiResp.notFoundResp, st)
  | some v =>
    match v.getattrBool "is_published" with
    | Except.error e => (ApiResp.serverError e, st)
    | Except.ok b =>
      if b then (ApiResp.badRequest "Product variant is already published", st)
      else
        let st2 := st.variantSaveExisting v
        match buildModelSerializerFields productVariantSerializerDeclared
            productVariantSerializerMetaFields productVariantModelAttrNames with
        | Except.ok _ => (ApiResp.ok "Product variant published successfully", st2)
        | Except.error e => (ApiResp.serverError e, st2)

/-- `ProductVariantUnpublishView.post` (symmetric). -/
def productVariantUnpublishView (st : Store) (pk : Nat) : ApiResp × Store :=
  match st.variants.find? (fun v => v.id == pk) with
  | none => (ApiResp.notFoundResp, st)
  | some v =>
    match v.getattrBool "is_published" with
    | Except.error e => (ApiResp.serverError e, st)
    | Except.ok b =>
      if !b then (ApiResp.badRequest "Product variant is already unpublished", st)
      else
        let st2 := st.variantSaveExisting v
        match buildModelSerializerFields productVariantSerializerDeclared
            productVariantSerializerMetaFields productVariantModelAttrNames with
        | Except.ok _ => (ApiResp.ok "Product variant unpublished successfully", st2)
        | Except.error e => (ApiResp.serverError e, st2)

/-! ### BaseProduct create / update serializers (`products/serializers.py`) -/

/-- Fields declared on `BaseProductCreateSerializer`. -/
def baseProductCreateSerializerDeclared : List String :=
  ["image_1", "image_2", "image_3", "image_4",
   "alt_text_1", "alt_text_2", "alt_text_3", "alt_text_4", "categories"]

/-- `BaseProductCreateSerializer.Meta.fields`. -/
def baseProductCreateSerializerMetaFields : List String :=
  ["model_name", "long_description", "brand", "categories", "specs",
   "image_1", "image_2", "image_3", "image_4",
   "alt_text_1", "alt_text_2", "alt_text_3", "alt_text_4"]

/-- Fields declared on `BaseProductUpdateSerializer`. -/
def baseProductUpdateSerializerDeclared : List String :=
  baseProductCreateSerializerDeclared ++ ["remove_images"]

/-- `BaseProductUpdateSerializer.Meta.fields`. -/
def baseProductUpdateSerializerMetaFields : List String :=
  baseProductCreateSerializerMetaFields ++ ["remove_images"]

/-- Payload of a `POST /products/base-products/create/` request.
`image_i = none` models an absent file slot. -/
structure BaseProductCreateRequest where
  model_name : String
  long_description : String
  brand : Nat
  categories : List Nat
  specs : Json
  image_1 : Option String := none
  image_2 : Option String := none
  image_3 : Option String := none
  image_4 : Option String := none
  alt_text_1 : Option String := none
  alt_text_2 : Option String := none
  alt_text_3 : Option String := none
  alt_text_4 : Option String := none

/-- The `images_data` list assembled in `create`/`update`: for each slot
with a file, pair it with its alt text (defaulting to the empty string). -/
def imagesDataOf (slots : List (Option String × Option String)) : List (String × String) :=
  slots.filterMap (fun x => x.1.map (fun f => (f, x.2.getD "")))

/-- `BaseProductCreateSerializer.validate_categories`. -/
def validateCategoriesCreate (st : Store) (value : List Nat) : Except DbError (List Nat) :=
  if value = [] then
    Except.error (DbError.validationError "At least one category is required.")
  else if (st.categories.filter (fun c => value.contains c.id && c.active)).length ≠ value.length then
    Except.error (DbError.validationError "One or more category IDs are invalid or inactive.")
  else
    Except.ok value

/-- `BaseProductUpdateSerializer.validate_categories`: the checks run
only when the provided list is truthy, i.e. non-empty (`if value:`). -/
def validateCategoriesUpdate (st : Store) (value : Option (List Nat)) :
    Except DbError (Option (List Nat)) :=
  match value with
  | none => Except.ok none
  | some l =>
    if l ≠ [] &&
        (st.categories.filter (fun c => l.contains c.id && c.active)).length ≠ l.length then
      Except.error (DbError.validationError "One or more category IDs are invalid or inactive.")
    else
      Except.ok (some l)

/-- `brand` as a `PrimaryKeyRelatedField` plus `validate_brand`:
resolve the id against the brand table, then require `active`. -/
def validateBrandRequired (st : Store) (brandId : Nat) : Except DbError Brand :=
  match st.brands.find? (fun b => b.id == brandId) with
  | none => Except.error (DbError.validationError "Invalid pk")
  | some b =>
    if !b.active then Except.error (DbError.validationError "The selected brand is inactive.")
    else Except.ok b

/-- Optional variant of the brand validation (update serializer). -/
def validateBrandOptional (st : Store) (brandId : Option Nat) : Except DbError (Option Brand) :=
  match brandId with
  | none => Except.ok none
  | some i => (validateBrandRequired st i).map some

/-- `BaseProductCreateSerializer.validate_specs`:
`isinstance(value, dict)` or reject. -/
def validateSpecsCreate (value : Json) : Except DbError Json :=
  if value.isObj then Except.ok value
  else Except.error (DbError.validationError "Specs must be a valid JSON object.")

/-- `BaseProductUpdateSerializer.validate_specs`: only a provided value
is checked (`if value is not None and not isinstance(value, dict)`). -/
def validateSpecsUpdate (value : Option Json) : Except DbError (Option Json) :=
  match value with
  | none => Except.ok none
  | some v =>
    if v.isObj then Except.ok (some v)
    else Except.error (DbError.validationError "Specs must be a valid JSON object.")

/-- `BaseProductCreateSerializer`: field construction, validation
(`is_valid`), then `create`: create the row, link the categories, then
create one `Image` per supplied slot — passing the foreign key under
the keyword `base_product`. -/
def baseProductCreateSerializerRun (user : Nat) (r : BaseProductCreateRequest) :
    M BaseProduct := do
  liftE (buildModelSerializerFields baseProductCreateSerializerDeclared
    baseProductCreateSerializerMetaFields baseProductModelAttrNames)
  let st ← getStore
  let cats ← liftE (validateCategoriesCreate st r.categories)
  let brand ← liftE (validateBrandRequired st r.brand)
  let specs ← liftE (validateSpecsCreate r.specs)
  let imagesData := imagesDataOf
    [(r.image_1, r.alt_text_1), (r.image_2, r.alt_text_2),
     (r.image_3, r.alt_text_3), (r.image_4, r.alt_text_4)]
  let bp ← baseProductObjectsCreate r.model_name r.long_description brand specs user
  categoriesSet bp.id cats
  let _ ← imagesData.mapM (fun d => imageObjectsCreate "base_product" bp.id d.1 d.2)
  pure { bp with categoryIds := cats }

/-- `BaseProductCreateView.create`: the serializer work runs inside
`@transaction.atomic`. -/
def baseProductCreateView (user : Nat) (r : BaseProductCreateRequest) : M BaseProduct :=
  atomic (baseProductCreateSerializerRun user r)

/-- Payload of a `PATCH/PUT /products/base-products/update/{pk}/`. -/
structure BaseProductUpdateRequest where
  model_name : Option String := none
  long_description : Option String := none
  brand : Option Nat := none
  categories : Option (List Nat) := none
  specs : Option Json := none
  remove_images : Option (List Nat) := none
  image_1 : Option String := none
  image_2 : Option String := none
  image_3 : Option String := none
  image_4 : Option String := none
  alt_text_1 : Option String := none
  alt_text_2 : Option String := none
  alt_text_3 : Option String := none
  alt_text_4 : Option String := none

/-- `BaseProductUpdateSerializer`: validation, then `update`: image
removal first (`Image.objects.filter(id__in=..., base_product=instance)`),
field merge and `instance.save()`, category replacement when provided,
then image additions (`Image.objects.create(base_product=instance, ...)`). -/
def baseProductUpdateSerializerRun (user : Nat) (inst : BaseProduct)
    (r : BaseProductUpdateRequest) : M BaseProduct := do
  liftE (buildModelSerializerFields baseProductUpdateSerializerDeclared
    baseProductUpdateSerializerMetaFields baseProductModelAttrNames)
  let st ← getStore
  let cats ← liftE (validateCategoriesUpdate st r.categories)
  let brand ← liftE (validateBrandOptional st r.brand)
  let specs ← liftE (validateSpecsUpdate r.specs)
  let imagesData := imagesDataOf
    [(r.image_1, r.alt_text_1), (r.image_2, r.alt_text_2),
     (r.image_3, r.alt_text_3), (r.image_4, r.alt_text_4)]
  let removeImages := r.remove_images.getD []
  if removeImages ≠ [] then
    imageObjectsFilterDelete removeImages "base_product" inst.id
  let inst2 : BaseProduct :=
    { inst with
      model_name := r.model_name.getD inst.model_name,
      long_description := r.long_description.getD inst.long_description,
      brandId := (brand.map Brand.id).getD inst.brandId,
      specs := specs.getD inst.specs,
      userLastModified := some user }
  let st2 ← getStore
  let st3 ← liftE (st2.productSaveExisting inst2)
  setStore st3
  match cats with
  | some l => categoriesSet inst.id l
  | none => pure ()
  let _ ← imagesData.mapM (fun d => imageObjectsCreate "base_product" inst.id d.1 d.2)
  pure inst2

/-- `BaseProductUpdateView.update`: fetch the instance
(`get_object`, 404 when absent), then run the serializer inside
`@transaction.atomic`. -/
def baseProductUpdateView (user pk : Nat) (r : BaseProductUpdateRequest) : M BaseProduct :=
  atomic (do
    let st ← getStore
    match st.products.find? (fun p => p.id == pk) with
    | none => throwDb DbError.notFound
    | some inst => baseProductUpdateSerializerRun user inst r)

/-! ### ProductVariant create / update serializers and views -/

/-- `ProductVariantCreateSerializer.Meta.fields` — note `is_published`. -/
def productVariantCreateSerializerMetaFields : List String :=
  ["base_product", "price", "condition", "stock_status", "is_published"]

/-- `ProductVariantUpdateSerializer.Meta.fields` (same list, optional). -/
def productVariantUpdateSerializerMetaFields : List String :=
  productVariantCreateSerializerMetaFields

/-- Payload of a `POST /products/variants/create/` request. -/
structure ProductVariantCreateRequest where
  base_product : Nat
  price : Int
  condition : String
  stock_status : String
  is_published : Bool

/-- Payload of a `PATCH/PUT /products/variants/update/{pk}/` request. -/
structure ProductVariantUpdateRequest where
  base_product : Option Nat := none
  price : Option Int := none
  condition : Option String := none
  stock_status : Option String := none
  is_published : Option Bool := none

/-- `base_product` as a `PrimaryKeyRelatedField` plus
`validate_base_product`: resolve the id, then require `active`. -/
def validateBaseProductRequired (st : Store) (productId : Nat) : Except DbError BaseProduct :=
  match st.products.find? (fun p => p.id == productId) with
  | none => Except.error (DbError.validationError "Invalid pk")
  | some p =>
    if !p.active then
      Except.error (DbError.validationError "The selected base product is inactive.")
    else Except.ok p

/-- Optional variant of the base-product validation (update serializer). -/
def validateBaseProductOptional (st : Store) (productId : Option Nat) :
    Except DbError (Option BaseProduct) :=
  match productId with
  | none => Except.ok none
  | some i => (validateBaseProductRequired st i).map some

/-- `ProductVariantCreateSerializer.validate_price`:
`if value <= 0: raise ValidationError(...)`. -/
def validatePrice (value : Int) : Except DbError Int :=
  if value ≤ 0 then
    Except.error (DbError.validationError "Price must be greater than zero.")
  else Except.ok value

/-- `ProductVariantUpdateSerializer.validate_price`:
`if value is not None and value <= 0`. -/
def validatePriceOptional (value : Option Int) : Except DbError (Option Int) :=
  match value with
  | none => Except.ok none
  | some v =>
    if v ≤ 0 then
      Except.error (DbError.validationError "Price must be greater than zero.")
    else Except.ok (some v)

/-- `ProductVariant.objects.create(**kwargs)`: reject a keyword that is
not a declared model field.  Were the keywords accepted, the row would
take the model default `is_publishied = True`, since no keyword carries
the declared name of that field. -/
def productVariantObjectsCreate (kwargNames : List String) (bpId : Nat) (price : Int)
    (condition stock_status : String) (user : Nat) : M ProductVariant := do
  if kwargNames.all (fun k => productVariantModelAttrNames.contains k) then
    let st ← getStore
    let v : ProductVariant :=
      { id := st.nextId, base_productId := bpId, price := price, description := none,
        condition := condition, stock_status := stock_status, is_publishied := true,
        userLastModified := some user, active := true }
    setStore { st with variants := st.variants ++ [v], nextId := st.nextId + 1 }
    pure v
  else
    throwDb (DbError.typeError "ProductVariant() got unexpected keyword arguments")

/-- `ProductVariantCreateSerializer`: field construction (`is_valid`),
validation, then `create` with the keyword set of `validated_data`
(which includes `is_published`). -/
def productVariantCreateSerializerRun (user : Nat) (r : ProductVariantCreateRequest) :
    M ProductVariant := do
  liftE (buildModelSerializerFields [] productVariantCreateSerializerMetaFields
    productVariantModelAttrNames)
  let st ← getStore
  let bp ← liftE (validateBaseProductRequired st r.base_product)
  let price ← liftE (validatePrice r.price)
  productVariantObjectsCreate
    ["base_product", "price", "condition", "stock_status", "is_published",
     "user_last_modified"]
    bp.id price r.condition r.stock_status user

/-- `ProductVariantCreateView.create` (`@transaction.atomic`): run the
serializer, then serialize the response with `ProductVariantSerializer`. -/
def productVariantCreateView (user : Nat) (r : ProductVariantCreateRequest) :
    M ProductVariant :=
  atomic (do
    let v ← productVariantCreateSerializerRun user r
    liftE (buildModelSerializerFields productVariantSerializerDeclared
      productVariantSerializerMetaFields productVariantModelAttrNames)
    pure v)

/-- `ProductVariantUpdateSerializer`: field construction, validation,
then `update`.  `instance.is_published = ...` sets a plain Python
attribute, not the declared `is_publishied` field, so `save()` leaves
the stored flag as it was. -/
def productVariantUpdateSerializerRun (user : Nat) (inst : ProductVariant)
    (r : ProductVariantUpdateRequest) : M ProductVariant := do
  liftE (buildModelSerializerFields [] productVariantUpdateSerializerMetaFields
    productVariantModelAttrNames)
  let st ← getStore
  let bp ← liftE (validateBaseProductOptional st r.base_product)
  let price ← liftE (validatePriceOptional r.price)
  let inst2 : ProductVariant :=
    { inst with
      base_productId := (bp.map BaseProduct.id).getD inst.base_productId,
      price := price.getD inst.price,
      condition := r.condition.getD inst.condition,
      stock_status := r.stock_status.getD inst.stock_status,
      userLastModified := some user }
  let st2 ← getStore
  setStore (st2.variantSaveExisting inst2)
  pure inst2

/-- `ProductVariantUpdateView.update` (`@transaction.atomic`). -/
def productVariantUpdateView (user pk : Nat) (r : ProductVariantUpdateRequest) :
    M ProductVariant :=
  atomic (do
    let st ← getStore
    match st.variants.find? (fun v => v.id == pk) with
    | none => throwDb DbError.notFound
    | some inst => do
      let v ← productVariantUpdateSerializerRun user inst r
      liftE (buildModelSerializerFields productVariantSerializerDeclared
        productVariantSerializerMetaFields productVariantModelAttrNames)
      pure v)

/-! ### Filters (`products/filters.py`) -/

/-- One JSON-spec value matched with the `icontains` lookup: the key
transform is compared as text (scalar leaves in their literal text
form, containers as JSON text — the clauses below inline `Json.text`);
a JSON `null` becomes SQL `NULL` and never matches. -/
def jsonValueIContains (v : Json) (s : String) : Bool :=
  match v with
  | Json.null => false
  | Json.bool b => icontains (if b then "true" else "false") s
  | Json.num n => icontains (toString n) s
  | Json.str t => icontains t s
  | Json.arr a => icontains (Json.text (Json.arr a)) s
  | Json.obj o => icontains (Json.text (Json.obj o)) s

/-- `icontains` over the value at a nested path of the `specs` JSON
column; a missing path is simply a non-match. -/
def jsonPathIContains (specs : Json) (path : List String) (s : String) : Bool :=
  match specs.lookupPath path with
  | some v => jsonValueIContains v s
  | none => false

/-- A `CharFilter` on a `specs__...` field name with the `icontains` lookup:
an absent query parameter leaves the queryset untouched; a present one
keeps exactly the rows whose spec value at the path matches. -/
def charFilterIContainsAtPath (path : List String) (q : Option String)
    (ps : List BaseProduct) : List BaseProduct :=
  match q with
  | none => ps
  | some s => ps.filter (fun p => jsonPathIContains p.specs path s)

/-- `BaseProductFilter.spec_processor_model`
(field name `specs__processor__model`, lookup `icontains`). -/
def spec_processor_model_filter (q : Option String) (ps : List BaseProduct) :
    List BaseProduct :=
  charFilterIContainsAtPath ["processor", "model"] q ps

/-- A boolean lookup on the variant queryset
(`qs.filter(<fieldName>=val)`): only declared model fields resolve;
anything else raises `FieldError`. -/
def variantQuerysetFilterBool (st : Store) (fieldName : String) (val : Bool) :
    Except DbError (List ProductVariant) :=
  if fieldName == "active" then
    Except.ok (st.variants.filter (fun v => v.active == val))
  else if fieldName == "is_publishied" then
    Except.ok (st.variants.filter (fun v => v.is_publishied == val))
  else
    Except.error (DbError.fieldError ("Cannot resolve keyword " ++ fieldName ++ " into field"))

/-- `ProductVariantFilter.is_published = filters.BooleanFilter()`: with
no explicit `field_name`, the filter applies `is_published=...` to the
queryset when the parameter is supplied. -/
def productVariantFilterIsPublished (st : Store) (q : Option Bool) :
    Except DbError (List ProductVariant) :=
  match q with
  | none => Except.ok st.variants
  | some b => variantQuerysetFilterBool st "is_published" b

/-! ### Concrete sample data used by witnesses and counterexamples -/

/-- The error constructor of an `Except` result, if any. -/
def exceptErr {A : Type} : Except DbError A → Option DbError
  | Except.error e => some e
  | Except.ok _ => none

/-- `True` iff the computation failed. -/
def exceptIsError {A : Type} (x : Except DbError A) : Bool :=
  match x with
  | Except.error _ => true
  | Except.ok _ => false

/-- A sample active brand. -/
def sampleBrand : Brand := { id := 1, name := "Asus", slug := "asus", active := true }

/-- A sample active category. -/
def sampleCategory : Category :=
  { id := 1, name := "Laptops", slug := "laptops", description := none, active := true }

/-- A second active category. -/
def sampleCategory9 : Category :=
  { id := 9, name := "Graphics", slug := "graphics", description := none, active := true }

/-- An inactive category. -/
def sampleCategory4 : Category :=
  { id := 4, name := "Retired", slug := "retired", description := none, active := false }

/-- A sample specs map with a `processor.model` entry. -/
def specsI5 : Json :=
  Json.obj
    [("processor", Json.obj [("model", Json.str "Intel Core i5 13450HX"), ("cores", Json.num 10)]),
     ("battery", Json.str "60Wh")]

/-- A sample specs map without any `processor` entry. -/
def specsNoProcessor : Json := Json.obj [("battery", Json.str "60Wh")]

/-- A sample product owning image 7 and variant 3. -/
def sampleProduct : BaseProduct :=
  { id := 2, model_name := "LOQ 15", slug := "asus-loq-15", long_description := "desc",
    brandId := 1, categoryIds := [1], specs := specsI5, userLastModified := none,
    active := true }

/-- A sample image, id 7, attached to product 2. -/
def sampleImage : Image :=
  { id := 7, product_variant := 2, imagen := "a.png", alt_text := "", active := true }

/-- A sample variant of product 2. -/
def sampleVariant : ProductVariant :=
  { id := 3, base_productId := 2, price := 100, description := none, condition := "nuevo",
    stock_status := "en_stock", is_publishied := true, userLastModified := none,
    active := true }

/-- A small consistent store. -/
def sampleStore : Store :=
  { brands := [sampleBrand],
    categories := [sampleCategory, sampleCategory9, sampleCategory4],
    products := [sampleProduct], variants := [sampleVariant], images := [sampleImage],
    nextId := 10 }

/-- A valid image-free create request. -/
def createReqNoImages : BaseProductCreateRequest :=
  { model_name := "TUF A15", long_description := "gaming laptop", brand := 1,
    categories := [1], specs := specsNoProcessor }

/-- The same create request carrying one image file. -/
def createReqOneImage : BaseProductCreateRequest :=
  { createReqNoImages with image_1 := some "front.png", alt_text_1 := some "front view" }

/-- An update request removing image 7 and adding a new image. -/
def updReqRemoveAdd : BaseProductUpdateRequest :=
  { remove_images := some [7], image_1 := some "new.png", alt_text_1 := some "new" }

/-- An update request providing an empty category list. -/
def updReqEmptyCats : BaseProductUpdateRequest := { categories := some [] }

/-- An update request replacing the categories with `[9]`. -/
def updReqCats9 : BaseProductUpdateRequest := { categories := some [9] }

/-- An update request touching only `long_description`. -/
def updReqDescOnly : BaseProductUpdateRequest := { long_description := some "updated" }

/-- A variant create request with price 1. -/
def varReqPrice1 : ProductVariantCreateRequest :=
  { base_product := 2, price := 1, condition := "nuevo", stock_status := "en_stock",
    is_published := true }

/-- A brand whose name has no alphanumeric character. -/
def punkBrand : Brand := { id := 1, name := "!!!", slug := "", active := true }

/-- A store holding only that brand and an active category. -/
def punkStore : Store :=
  { brands := [punkBrand], categories := [sampleCategory], products := [], variants := [],
    images := [], nextId := 20 }

/-- A create request whose model name also has no alphanumeric character. -/
def punkReq : BaseProductCreateRequest :=
  { model_name := "???", long_description := "d", brand := 1, categories := [1],
    specs := specsNoProcessor }

/-! ## Helper lemmas -/

/-- Unfolding `bind` of the database monad at a store. -/
theorem M_bind_apply {A B : Type} (x : M A) (f : A → M B) (st : Store) :
    (x >>= f) st =
      match x st with
      | (Except.ok a, st2) => f a st2
      | (Except.error e, st2) => (Except.error e, st2) := rfl

/-- Unfolding `pure` of the database monad at a store. -/
theorem M_pure_apply {A : Type} (a : A) (st : Store) :
    (pure a : M A) st = (Except.ok a, st) := rfl

/-- `liftE` leaves the store untouched. -/
theorem liftE_apply {A : Type} (x : Except DbError A) (st : Store) :
    liftE x st = (x, st) := rfl

/-- Unfolding `getStore` at a store. -/
theorem getStore_apply (st : Store) : getStore st = (Except.ok st, st) := rfl

/-- Unfolding `setStore` at a store. -/
theorem setStore_apply (st0 st : Store) : setStore st0 st = (Except.ok (), st0) := rfl

/-- Rollback: whenever an `atomic` block fails, the store is restored to
the snapshot taken at entry. -/
theorem atomic_rollback {A : Type} (body : M A) (st : Store)
    (h : exceptIsError ((atomic body) st).1 = true) : ((atomic body) st).2 = st := by
  unfold atomic
  rcases hb : body st with ⟨x, st2⟩
  cases x with
  | ok a =>
    exfalso
    unfold atomic at h
    rw [hb] at h
    simp [exceptIsError] at h
  | error e => rfl

/-! ## Claims -/

/-- C3: the spec intends base-product creation to attach each supplied
image to the new product; but `Image` declares its foreign key under the
name `product_variant`, so the serializer call
`Image.objects.create(base_product=..., ...)` raises `TypeError`: a
create request carrying one image file fails outright — the product and
its images are rolled back, and no Image row referencing the product is
ever created. -/
theorem image_attach_on_create_fails :
    exceptErr ((baseProductCreateView 5 createReqOneImage) sampleStore).1 =
      some (DbError.typeError "Image() got unexpected keyword arguments: base_product")
    ∧ ((baseProductCreateView 5 createReqOneImage) sampleStore).2 = sampleStore
    ∧ ((baseProductCreateView 5 createReqOneImage) sampleStore).2.images.length = 1
    ∧ "base_product" ∉ imageModelKwargNames
    ∧ "product_variant" ∈ imageModelKwargNames :=
  ⟨by decide, rfl, by decide, by decide, by decide⟩

/-- C9: the spec intends `remove_images=[7]` plus a new `image_1` to
delete image 7 and add the new image; but the removal queryset
`Image.objects.filter(id__in=..., base_product=instance)` names a
nonexistent field (the foreign key of `Image` is declared as
`product_variant`), raising `FieldError`: the whole update fails and
rolls back, leaving image 7 present and adding nothing. -/
theorem remove_images_update_fails :
    exceptErr ((baseProductUpdateView 5 2 updReqRemoveAdd) sampleStore).1 =
      some (DbError.fieldError "Cannot resolve keyword base_product into field")
    ∧ ((baseProductUpdateView 5 2 updReqRemoveAdd) sampleStore).2 = sampleStore
    ∧ sampleStore.images.map Image.id = [7]
    ∧ ((baseProductUpdateView 5 2 updReqRemoveAdd) sampleStore).2.images.map Image.id = [7]
    ∧ "base_product" ∉ imageModelKwargNames :=
  ⟨by decide, rfl, by decide, by decide, by decide⟩

/-- C4: the claim says the publish endpoints, the variant serializer
and the `is_published` filter all read and write the model field
`is_publishied`; in fact all three access the name `is_published`,
which is not a model attribute: the publish and unpublish views raise
`AttributeError` and leave the store untouched, the variant serializer
cannot even be constructed (`ImproperlyConfigured`), and the filter
produces a `FieldError` — none of them ever reads or writes the
persisted `is_publishied` column. -/
theorem published_flag_name_mismatch :
    "is_publishied" ∈ productVariantModelAttrNames
    ∧ "is_published" ∉ productVariantModelAttrNames
    ∧ (productVariantPublishView sampleStore 3).1 =
        ApiResp.serverError (DbError.attributeError "is_published")
    ∧ (productVariantPublishView sampleStore 3).2 = sampleStore
    ∧ (productVariantUnpublishView sampleStore 3).1 =
        ApiResp.serverError (DbError.attributeError "is_published")
    ∧ buildModelSerializerFields productVariantSerializerDeclared
        productVariantSerializerMetaFields productVariantModelAttrNames =
        Except.error (DbError.improperlyConfigured "Field name is not valid for model")
    ∧ productVariantFilterIsPublished sampleStore (some true) =
        Except.error (DbError.fieldError "Cannot resolve keyword is_published into field") :=
  ⟨by decide, by decide, by decide, rfl, by decide, rfl, rfl⟩

/-- C2: every base-product create or update runs inside
`@transaction.atomic`: whenever the request fails — validation or
constraint — the store after the request equals the store before it.
The closed conjuncts show the guarantee is not vacuous: the sample
failing create writes the product row before raising (visible when the
serializer is run without the transaction wrapper), yet the view leaves
the store unchanged. -/
theorem baseProduct_write_sequences_atomic :
    (∀ (user : Nat) (r : BaseProductCreateRequest) (st : Store),
        exceptIsError ((baseProductCreateView user r) st).1 = true →
        ((baseProductCreateView user r) st).2 = st)
    ∧ (∀ (user pk : Nat) (r : BaseProductUpdateRequest) (st : Store),
        exceptIsError ((baseProductUpdateView user pk r) st).1 = true →
        ((baseProductUpdateView user pk r) st).2 = st)
    ∧ exceptIsError ((baseProductCreateSerializerRun 5 createReqOneImage) sampleStore).1 = true
    ∧ ((baseProductCreateSerializerRun 5 createReqOneImage) sampleStore).2.products.length =
        sampleStore.products.length + 1
    ∧ ((baseProductCreateView 5 createReqOneImage) sampleStore).2 = sampleStore :=
  ⟨fun _ r st h => atomic_rollback (baseProductCreateSerializerRun _ r) st h,
   fun _ _ r st h => atomic_rollback _ st h,
   by decide, by decide, rfl⟩

/-- Witness for C2 at a concrete failing request. -/
theorem baseProduct_write_sequences_atomic_witness :
    ((baseProductCreateView 5 createReqOneImage) sampleStore).2 = sampleStore :=
  baseProduct_write_sequences_atomic.1 5 createReqOneImage sampleStore (by decide)

/-- C5: the price validators themselves implement exactly the claimed
rule — rejection iff `p ≤ 0`, with `p = 1` passing; but the claim is
about the requests, and every variant create or update request fails
before validation ever runs, because building the serializer fields
raises `ImproperlyConfigured` (`is_published` is not a field of the
model, which declares `is_publishied`): a create with price 1 is *not*
accepted, and a create with price 0 is rejected with a configuration
error, not a validation error.  No write occurs in either case. -/
theorem variant_price_endpoint_broken :
    (∀ p : Int, (∃ e, validatePrice p = Except.error e) ↔ p ≤ 0)
    ∧ validatePrice 1 = Except.ok 1
    ∧ (∀ p : Int, (∃ e, validatePriceOptional (some p) = Except.error e) ↔ p ≤ 0)
    ∧ exceptErr ((productVariantCreateView 5 varReqPrice1) sampleStore).1 =
        some (DbError.improperlyConfigured "Field name is not valid for model")
    ∧ ((productVariantCreateView 5 varReqPrice1) sampleStore).2 = sampleStore
    ∧ exceptErr ((productVariantCreateView 5 { varReqPrice1 with price := 0 }) sampleStore).1 =
        some (DbError.improperlyConfigured "Field name is not valid for model")
    ∧ exceptErr ((productVariantUpdateView 5 3 { price := some 1 }) sampleStore).1 =
        some (DbError.improperlyConfigured "Field name is not valid for model")
    ∧ ((productVariantUpdateView 5 3 { price := some 1 }) sampleStore).2 = sampleStore := by
  refine ⟨?_, rfl, ?_, by decide, rfl, by decide, by decide, rfl⟩
  · intro p
    unfold validatePrice
    by_cases h : p ≤ 0 <;> simp [h]
  · intro p
    unfold validatePriceOptional
    by_cases h : p ≤ 0 <;> simp [h]

/-- A create whose specs payload fails `isinstance(value, dict)` leaves
the store exactly as it was — even without the transaction wrapper,
since validation precedes every write. -/
theorem specsCreateRejectsAux (user : Nat) (r : BaseProductCreateRequest) (st : Store)
    (h : r.specs.isObj = false) :
    ∃ e, (baseProductCreateSerializerRun user r) st = (Except.error e, st) := by
  unfold baseProductCreateSerializerRun
  have hb : buildModelSerializerFields baseProductCreateSerializerDeclared
      baseProductCreateSerializerMetaFields baseProductModelAttrNames = Except.ok () := rfl
  simp only [M_bind_apply, liftE_apply, getStore_apply, hb]
  cases hc : validateCategoriesCreate st r.categories with
  | error e => exact ⟨e, rfl⟩
  | ok cats =>
    cases hbr : validateBrandRequired st r.brand with
    | error e => exact ⟨e, rfl⟩
    | ok brand =>
      have hsp : validateSpecsCreate r.specs =
          Except.error (DbError.validationError "Specs must be a valid JSON object.") := by
        unfold validateSpecsCreate
        rw [h]
        rfl
      rw [hsp]
      exact ⟨_, rfl⟩

/-- Analogue of `specsCreateRejectsAux` for the update serializer. -/
theorem specsUpdateRejectsAux (user : Nat) (inst : BaseProduct)
    (r : BaseProductUpdateRequest) (st : Store) (v : Json)
    (hv : r.specs = some v) (h : v.isObj = false) :
    ∃ e, (baseProductUpdateSerializerRun user inst r) st = (Except.error e, st) := by
  unfold baseProductUpdateSerializerRun
  have hb : buildModelSerializerFields baseProductUpdateSerializerDeclared
      baseProductUpdateSerializerMetaFields baseProductModelAttrNames = Except.ok () := rfl
  simp only [M_bind_apply, liftE_apply, getStore_apply, hb]
  cases hc : validateCategoriesUpdate st r.categories with
  | error e => exact ⟨e, rfl⟩
  | ok cats =>
    cases hbr : validateBrandOptional st r.brand with
    | error e => exact ⟨e, rfl⟩
    | ok brand =>
      have hsp : validateSpecsUpdate r.specs =
          Except.error (DbError.validationError "Specs must be a valid JSON object.") := by
        rw [hv]
        unfold validateSpecsUpdate
        simp [h]
      rw [hsp]
      exact ⟨_, rfl⟩

/-- C6: a base-product create or update carrying a `specs` payload is
rejected with a validation error exactly when the payload is not a JSON
object (scalars and arrays rejected, any object accepted by the specs
validator), and such a rejection happens before any persistence
mutation: the serializer leaves the store untouched even without the
surrounding transaction. -/
theorem specs_object_validation_spec :
    (∀ v : Json, (∃ e, validateSpecsCreate v = Except.error e) ↔ v.isObj = false)
    ∧ (∀ v : Json, (∃ e, validateSpecsUpdate (some v) = Except.error e) ↔ v.isObj = false)
    ∧ validateSpecsUpdate none = Except.ok none
    ∧ (∀ (user : Nat) (r : BaseProductCreateRequest) (st : Store),
        r.specs.isObj = false →
          exceptIsError ((baseProductCreateSerializerRun user r) st).1 = true
          ∧ ((baseProductCreateSerializerRun user r) st).2 = st)
    ∧ (∀ (user : Nat) (inst : BaseProduct) (r : BaseProductUpdateRequest) (st : Store)
        (v : Json), r.specs = some v → v.isObj = false →
          exceptIsError ((baseProductUpdateSerializerRun user inst r) st).1 = true
          ∧ ((baseProductUpdateSerializerRun user inst r) st).2 = st) := by
  refine ⟨?_, ?_, rfl, ?_, ?_⟩
  · intro v
    unfold validateSpecsCreate
    cases hv : v.isObj <;> simp [hv]
  · intro v
    unfold validateSpecsUpdate
    cases hv : v.isObj <;> simp [hv]
  · intro user r st h
    rcases specsCreateRejectsAux user r st h with ⟨e, he⟩
    rw [he]
    exact ⟨rfl, rfl⟩
  · intro user inst r st v hv h
    rcases specsUpdateRejectsAux user inst r st v hv h with ⟨e, he⟩
    rw [he]
    exact ⟨rfl, rfl⟩

/-- Witness for C6: a create whose specs payload is the JSON string
`"x"` and an update whose specs payload is a JSON array are both
rejected and leave the sample store unchanged. -/
theorem specs_object_validation_spec_witness :
    (exceptIsError
        ((baseProductCreateSerializerRun 5 { createReqNoImages with specs := Json.str "x" })
          sampleStore).1 = true
      ∧ ((baseProductCreateSerializerRun 5 { createReqNoImages with specs := Json.str "x" })
          sampleStore).2 = sampleStore)
    ∧ (exceptIsError
        ((baseProductUpdateSerializerRun 5 sampleProduct { specs := some (Json.arr []) })
          sampleStore).1 = true
      ∧ ((baseProductUpdateSerializerRun 5 sampleProduct { specs := some (Json.arr []) })
          sampleStore).2 = sampleStore) :=
  ⟨specs_object_validation_spec.2.2.2.1 5 { createReqNoImages with specs := Json.str "x" }
      sampleStore rfl,
   specs_object_validation_spec.2.2.2.2 5 sampleProduct { specs := some (Json.arr []) }
      sampleStore (Json.arr []) rfl rfl⟩

/-- The `icontains` match on one spec value, characterized through the
text rendering: a JSON `null` never matches; every other value matches
iff its text contains the query case-insensitively. -/
theorem jsonValueIContainsAux (v : Json) (s : String) :
    jsonValueIContains v s = true ↔ (v ≠ Json.null ∧ icontains v.text s = true) := by
  cases v <;> simp [jsonValueIContains, Json.text]

/-- Path matching characterized: a match requires the path to resolve. -/
theorem jsonPathIContainsAux (specs : Json) (s : String) :
    jsonPathIContains specs ["processor", "model"] s = true ↔
      ∃ v, specs.lookupPath ["processor", "model"] = some v ∧
        v ≠ Json.null ∧ icontains v.text s = true := by
  unfold jsonPathIContains
  cases hl : specs.lookupPath ["processor", "model"] with
  | none => simp
  | some v => simp [jsonValueIContainsAux]

/-- C1: filtering with `spec_processor_model=s` keeps exactly the
products of the queryset whose specs resolve the nested path
`processor.model` to a (non-null) value whose text contains `s`
case-insensitively; a product lacking the path is excluded without
error, and an absent parameter leaves the queryset untouched. -/
theorem spec_processor_model_filter_spec :
    (∀ (ps : List BaseProduct) (s : String) (p : BaseProduct),
        p ∈ spec_processor_model_filter (some s) ps ↔
          p ∈ ps ∧ ∃ v, p.specs.lookupPath ["processor", "model"] = some v ∧
            v ≠ Json.null ∧ icontains v.text s = true)
    ∧ (∀ ps : List BaseProduct, spec_processor_model_filter none ps = ps)
    ∧ (∀ (ps : List BaseProduct) (s : String) (p : BaseProduct),
        p.specs.lookupPath ["processor", "model"] = none →
          p ∉ spec_processor_model_filter (some s) ps) := by
  have h1 : ∀ (ps : List BaseProduct) (s : String) (p : BaseProduct),
      p ∈ spec_processor_model_filter (some s) ps ↔
        p ∈ ps ∧ ∃ v, p.specs.lookupPath ["processor", "model"] = some v ∧
          v ≠ Json.null ∧ icontains v.text s = true := by
    intro ps s p
    unfold spec_processor_model_filter charFilterIContainsAtPath
    rw [List.mem_filter, jsonPathIContainsAux]
  refine ⟨h1, fun ps => rfl, ?_⟩
  intro ps s p h hmem
  rcases (h1 ps s p).mp hmem with ⟨-, v, hv, -, -⟩
  rw [h] at hv
  exact Option.noConfusion hv

/-- Witness for C1: the sample product (whose `processor.model` is
`"Intel Core i5 13450HX"`) passes the `i5` filter, while the same
product without a `processor` entry is excluded. -/
theorem spec_processor_model_filter_spec_witness :
    sampleProduct ∈ spec_processor_model_filter (some "i5") [sampleProduct]
    ∧ ({ sampleProduct with specs := specsNoProcessor } : BaseProduct) ∉
        spec_processor_model_filter (some "i5")
          [{ sampleProduct with specs := specsNoProcessor }] :=
  ⟨(spec_processor_model_filter_spec.1 [sampleProduct] "i5" sampleProduct).mpr
      ⟨by simp, Json.str "Intel Core i5 13450HX", rfl, by simp,
       by simp [Json.text]; decide⟩,
   spec_processor_model_filter_spec.2.2 _ "i5" _ rfl⟩

/-- Counting with `id__in`: for a duplicate-free id list `I`, the
number of elements of `I` contained in `l` equals the length of `l` exactly
when `l` is duplicate-free and every element of `l` lies in `I`. -/
theorem nodupFilterContainsAux (I : List Nat) (hI : I.Nodup) (l : List Nat) :
    (I.filter (fun i => l.contains i)).length = l.length ↔ (l.Nodup ∧ ∀ i ∈ l, i ∈ I) := by
  have hKn : (I.filter (fun i => l.contains i)).Nodup := hI.sublist (List.filter_sublist I)
  have hKsub : ∀ i ∈ I.filter (fun i => l.contains i), i ∈ l := by
    intro i hi
    have h := (List.mem_filter.mp hi).2
    simpa using h
  have hKI : ∀ i ∈ I.filter (fun i => l.contains i), i ∈ I :=
    fun i hi => (List.mem_filter.mp hi).1
  have hKfin : (I.filter (fun i => l.contains i)).toFinset.card =
      (I.filter (fun i => l.contains i)).length := List.toFinset_card_of_nodup hKn
  have hsub : (I.filter (fun i => l.contains i)).toFinset ⊆ l.toFinset := by
    intro i hi
    rw [List.mem_toFinset] at hi ⊢
    exact hKsub i hi
  constructor
  · intro hlen
    have h1 : l.toFinset.card ≤ l.length := List.toFinset_card_le l
    have h2 : (I.filter (fun i => l.contains i)).toFinset.card ≤ l.toFinset.card :=
      Finset.card_le_card hsub
    have hde : l.toFinset.card = l.length := by omega
    have hnodup : l.Nodup := by
      rw [List.card_toFinset] at hde
      have hds := List.dedup_sublist l
      have heq : l.dedup = l := hds.eq_of_length hde
      exact heq ▸ List.nodup_dedup l
    have hfe : (I.filter (fun i => l.contains i)).toFinset = l.toFinset :=
      Finset.eq_of_subset_of_card_le hsub (by omega)
    refine ⟨hnodup, ?_⟩
    intro i hi
    have hm : i ∈ l.toFinset := List.mem_toFinset.mpr hi
    rw [← hfe] at hm
    exact hKI i (List.mem_toFinset.mp hm)
  · rintro ⟨hnd, hsub2⟩
    have hfe : (I.filter (fun i => l.contains i)).toFinset = l.toFinset := by
      apply Finset.Subset.antisymm hsub
      intro i hi
      rw [List.mem_toFinset] at hi ⊢
      rw [List.mem_filter]
      refine ⟨hsub2 i hi, ?_⟩
      simpa using hi
    rw [← hKfin, hfe, List.toFinset_card_of_nodup hnd]

theorem categoriesCountAux (cats : List Category) (hn : (cats.map Category.id).Nodup)
    (l : List Nat) :
    ((cats.filter (fun c => l.contains c.id && c.active)).length = l.length) ↔
      (l.Nodup ∧ ∀ i ∈ l, ∃ c ∈ cats, c.id = i ∧ c.active = true) := by
  have e1 : cats.filter (fun c => l.contains c.id && c.active) =
      (cats.filter (fun c => c.active)).filter (fun c => l.contains c.id) :=
    (List.filter_filter ..).symm
  have e2 : ((cats.filter (fun c => c.active)).filter (fun c => l.contains c.id)).length =
      (((cats.filter (fun c => c.active)).map Category.id).filter
        (fun i => l.contains i)).length := by
    rw [List.filter_map, List.length_map]
    rfl
  have hI : ((cats.filter (fun c => c.active)).map Category.id).Nodup :=
    hn.sublist ((List.filter_sublist cats).map Category.id)
  have e3 : ∀ i, (i ∈ (cats.filter (fun c => c.active)).map Category.id) ↔
      ∃ c ∈ cats, c.id = i ∧ c.active = true := by
    intro i
    simp only [List.mem_map, List.mem_filter]
    constructor
    · rintro ⟨c, ⟨hc, ha⟩, hid⟩
      exact ⟨c, hc, hid, ha⟩
    · rintro ⟨c, hc, hid, ha⟩
      exact ⟨c, ⟨hc, ha⟩, hid⟩
  rw [e1, e2, nodupFilterContainsAux _ hI l]
  constructor
  · rintro ⟨h1, h2⟩
    exact ⟨h1, fun i hi => (e3 i).mp (h2 i hi)⟩
  · rintro ⟨h1, h2⟩
    exact ⟨h1, fun i hi => (e3 i).mpr (h2 i hi)⟩

theorem validateCategoriesCreateIffAux (st : Store)
    (hn : (st.categories.map Category.id).Nodup) (l : List Nat) :
    (∃ e, validateCategoriesCreate st l = Except.error e) ↔
      (l = [] ∨ ¬(l.Nodup ∧ ∀ i ∈ l, ∃ c ∈ st.categories, c.id = i ∧ c.active = true)) := by
  unfold validateCategoriesCreate
  rw [← categoriesCountAux st.categories hn l]
  split_ifs with h0 h2
  · simp [h0]
  · exact iff_of_true ⟨_, rfl⟩ (Or.inr h2)
  · constructor
    · rintro ⟨e, he⟩
      exact he.elim
    · rintro (h | h)
      · exact (h0 h).elim
      · exact (h (not_not.mp h2)).elim

theorem validateCategoriesUpdateIffAux (st : Store)
    (hn : (st.categories.map Category.id).Nodup) (l : List Nat) (hne : l ≠ []) :
    (∃ e, validateCategoriesUpdate st (some l) = Except.error e) ↔
      ¬(l.Nodup ∧ ∀ i ∈ l, ∃ c ∈ st.categories, c.id = i ∧ c.active = true) := by
  unfold validateCategoriesUpdate
  rw [← categoriesCountAux st.categories hn l]
  by_cases hc : (List.filter (fun c => l.contains c.id && c.active) st.categories).length = l.length
  · simp at hc
    simp [hne, hc]
  · simp at hc
    simp [hne, hc]

/-- C8 counterexample: the claim says a category list provided on
update undergoes the same check as on create — where an empty list is
rejected; but the update validator only runs its checks `if value:`,
so `categories=[]` passes validation and `categories.set([])` then
*clears* the categories of the product (sample product starts with `[1]`). -/
theorem update_accepts_empty_category_list :
    exceptIsError ((baseProductUpdateView 5 2 updReqEmptyCats) sampleStore).1 = false
    ∧ sampleProduct.categoryIds = [1]
    ∧ ((baseProductUpdateView 5 2 updReqEmptyCats) sampleStore).2.products.map
        BaseProduct.categoryIds = [[]]
    ∧ (∃ e, validateCategoriesCreate sampleStore [] = Except.error e) :=
  ⟨by decide, by decide, by decide, ⟨_, rfl⟩⟩

/-- C8 (amended): on create the category list must be non-empty and
every listed id must reference a *distinct* active category (the
count-based check also rejects duplicate ids), else the request is
rejected; on update a provided *non-empty* list undergoes the same
check and the categories of the product become exactly that list, a provided
*empty* list is accepted and clears the categories, and an absent list
leaves them unchanged. -/
theorem category_validation_amended_spec :
    (∀ st : Store, (st.categories.map Category.id).Nodup →
      (∀ l : List Nat,
        ((∃ e, validateCategoriesCreate st l = Except.error e) ↔
          (l = [] ∨
            ¬(l.Nodup ∧ ∀ i ∈ l, ∃ c ∈ st.categories, c.id = i ∧ c.active = true))))
      ∧ (∀ l : List Nat, l ≠ [] →
          ((∃ e, validateCategoriesUpdate st (some l) = Except.error e) ↔
            ¬(l.Nodup ∧ ∀ i ∈ l, ∃ c ∈ st.categories, c.id = i ∧ c.active = true))))
    ∧ (∀ st : Store, validateCategoriesUpdate st (some []) = Except.ok (some [])
        ∧ validateCategoriesUpdate st none = Except.ok none)
    ∧ (exceptIsError ((baseProductUpdateView 5 2 updReqCats9) sampleStore).1 = false
        ∧ ((baseProductUpdateView 5 2 updReqCats9) sampleStore).2.products.map
            BaseProduct.categoryIds = [[9]])
    ∧ (exceptIsError ((baseProductUpdateView 5 2 updReqDescOnly) sampleStore).1 = false
        ∧ ((baseProductUpdateView 5 2 updReqDescOnly) sampleStore).2.products.map
            BaseProduct.categoryIds = [[1]])
    ∧ (exceptIsError ((baseProductUpdateView 5 2 updReqEmptyCats) sampleStore).1 = false
        ∧ ((baseProductUpdateView 5 2 updReqEmptyCats) sampleStore).2.products.map
            BaseProduct.categoryIds = [[]]) :=
  ⟨fun st hn =>
      ⟨fun l => validateCategoriesCreateIffAux st hn l,
       fun l hne => validateCategoriesUpdateIffAux st hn l hne⟩,
   fun _ => ⟨rfl, rfl⟩,
   ⟨by decide, by decide⟩, ⟨by decide, by decide⟩, ⟨by decide, by decide⟩⟩

/-- Witness for C8: on the sample store, creating with the inactive
category `[4]` is rejected, and updating with the duplicate list
`[1, 1]` is rejected even though category 1 is active. -/
theorem category_validation_amended_spec_witness :
    (∃ e, validateCategoriesCreate sampleStore [4] = Except.error e)
    ∧ (∃ e, validateCategoriesUpdate sampleStore (some [1, 1]) = Except.error e) :=
  ⟨((category_validation_amended_spec.1 sampleStore (by decide)).1 [4]).mpr (by decide),
   ((category_validation_amended_spec.1 sampleStore (by decide)).2 [1, 1]
      (by decide)).mpr (by decide)⟩

/-- ASCII lowering preserves the alphanumeric property. -/
theorem lowerChar_alnum (c : Char) : isAsciiAlnum (lowerChar c) = isAsciiAlnum c := by
  unfold lowerChar
  split <;> rfl

theorem dashspace_not_alnum (c : Char) (h : isDashSpace c = true) :
    isAsciiAlnum c = false := by
  unfold isDashSpace isSpaceCh at h
  simp only [Bool.or_eq_true, decide_eq_true_eq] at h
  obtain rfl | h := h
  · rfl
  obtain ((((rfl | rfl) | rfl) | rfl) | rfl) | rfl := h <;> rfl

theorem stripch_not_alnum (c : Char) (h : isStripCh c = true) :
    isAsciiAlnum c = false := by
  unfold isStripCh at h
  simp only [Bool.or_eq_true, decide_eq_true_eq] at h
  obtain rfl | rfl := h <;> rfl

theorem alnum_keep (c : Char) (h : isAsciiAlnum c = true) : keepCh c = true := by
  unfold keepCh isWordCh
  simp [h]

theorem countP_dropWhile_of_imp (p q : Char → Bool)
    (hpq : ∀ c, q c = true → p c = false) (l : List Char) :
    (l.dropWhile q).countP p = l.countP p := by
  induction l with
  | nil => simp
  | cons c rest ih =>
    by_cases hq : q c = true
    · rw [List.dropWhile_cons_of_pos hq, ih, List.countP_cons, hpq c hq]
      simp
    · rw [List.dropWhile_cons_of_neg hq]

theorem collapseAux_countP_alnum (l : List Char) (b : Bool) :
    (collapseAux b l).countP (fun c => isAsciiAlnum c) =
      l.countP (fun c => isAsciiAlnum c) := by
  have hdash : isAsciiAlnum '-' = false := rfl
  induction l generalizing b with
  | nil => rfl
  | cons c rest ih =>
    by_cases hd : isDashSpace c = true
    · have hna := dashspace_not_alnum c hd
      cases b <;> simp [collapseAux, hd, List.countP_cons, ih, hna, hdash]
    · have hd2 : isDashSpace c = false := by
        cases h : isDashSpace c
        · rfl
        · exact absurd h hd
      simp [collapseAux, hd2, List.countP_cons, ih]

theorem stripBoth_countP_alnum (l : List Char) :
    (stripBoth isStripCh l).countP (fun c => isAsciiAlnum c) =
      l.countP (fun c => isAsciiAlnum c) := by
  unfold stripBoth
  rw [List.countP_reverse, countP_dropWhile_of_imp _ _ stripch_not_alnum,
    List.countP_reverse, countP_dropWhile_of_imp _ _ stripch_not_alnum]

theorem slugifyList_countP_alnum (l : List Char) :
    (slugifyList l).countP (fun c => isAsciiAlnum c) =
      l.countP (fun c => isAsciiAlnum c) := by
  unfold slugifyList collapseRuns
  rw [stripBoth_countP_alnum, collapseAux_countP_alnum, List.countP_filter,
    List.countP_map]
  apply List.countP_congr
  intro a _
  have hl := lowerChar_alnum a
  constructor
  · intro h
    simp only [Function.comp_apply, Bool.and_eq_true] at h
    rw [← hl]
    exact h.1
  · intro h
    simp only [Function.comp_apply, Bool.and_eq_true]
    have h1 : isAsciiAlnum (lowerChar a) = true := by rw [hl]; exact h
    exact ⟨h1, alnum_keep _ h1⟩

theorem nonalnum_keep_cases (c : Char) (hk : keepCh c = true)
    (hna : isAsciiAlnum c = false) : isDashSpace c = true ∨ c = '_' := by
  unfold keepCh isWordCh at hk
  simp only [Bool.or_eq_true, decide_eq_true_eq] at hk
  obtain ((h | rfl) | h) | rfl := hk
  · rw [hna] at h
    exact absurd h (by decide)
  · exact Or.inr rfl
  · exact Or.inl (by unfold isDashSpace; simp [h])
  · exact Or.inl rfl

theorem collapseAux_members (l : List Char) (b : Bool)
    (h : ∀ c ∈ l, isDashSpace c = true ∨ c = '_') :
    ∀ c ∈ collapseAux b l, isStripCh c = true := by
  induction l generalizing b with
  | nil =>
    intro c hc
    simp [collapseAux] at hc
  | cons a rest ih =>
    have hrest : ∀ c ∈ rest, isDashSpace c = true ∨ c = '_' :=
      fun c hc => h c (List.mem_cons_of_mem _ hc)
    have hhead := h a (List.mem_cons_self a rest)
    intro c hc
    by_cases hd : isDashSpace a = true
    · have e : collapseAux b (a :: rest) =
          if b then collapseAux true rest else '-' :: collapseAux true rest := by
        simp [collapseAux, hd]
      rw [e] at hc
      cases b with
      | true => exact ih true hrest c (by simpa using hc)
      | false =>
        simp only [if_neg Bool.false_ne_true, List.mem_cons] at hc
        rcases hc with rfl | hc
        · rfl
        · exact ih true hrest c hc
    · have hd2 : isDashSpace a = false := by
        cases hx : isDashSpace a
        · rfl
        · exact absurd hx hd
      have e : collapseAux b (a :: rest) = a :: collapseAux false rest := by
        simp [collapseAux, hd2]
      rw [e] at hc
      rcases List.mem_cons.mp hc with rfl | hc
      · rcases hhead with ha | ha
        · exact absurd ha hd
        · rw [ha]
          rfl
      · exact ih false hrest c hc

theorem stripBoth_eq_nil_of_all (l : List Char) (h : ∀ c ∈ l, isStripCh c = true) :
    stripBoth isStripCh l = [] := by
  unfold stripBoth
  rw [List.dropWhile_eq_nil_iff.mpr h]
  rfl

theorem slugify_ne_empty_iff (s : String) :
    slugify s ≠ "" ↔ ∃ c ∈ s.data, isAsciiAlnum c = true := by
  constructor
  · intro h
    by_contra hno
    push_neg at hno
    apply h
    have hall : ∀ c ∈ (s.data.map lowerChar).filter keepCh,
        isDashSpace c = true ∨ c = '_' := by
      intro c hc
      rcases List.mem_filter.mp hc with ⟨hcm, hk⟩
      rcases List.mem_map.mp hcm with ⟨a, ha, rfl⟩
      have hna : isAsciiAlnum (lowerChar a) = false := by
        rw [lowerChar_alnum]
        cases hx : isAsciiAlnum a
        · rfl
        · exact absurd hx (hno a ha)
      exact nonalnum_keep_cases _ hk hna
    have hnil : slugifyList s.data = [] := by
      unfold slugifyList collapseRuns
      exact stripBoth_eq_nil_of_all _ (collapseAux_members _ _ hall)
    unfold slugify
    rw [hnil]
  · rintro ⟨c, hc, ha⟩ h
    have hpos : 0 < s.data.countP (fun c => isAsciiAlnum c) :=
      List.countP_pos_iff.mpr ⟨c, hc, ha⟩
    have h0 : slugifyList s.data = [] := by
      unfold slugify at h
      have hd := congrArg String.data h
      simpa using hd
    rw [← slugifyList_countP_alnum s.data, h0] at hpos
    simp at hpos

/-- C10 counterexample: the claim says the slug is non-empty after
every save; but `slugify` strips every non-alphanumeric character, so a
brand named `"!!!"` and a model named `"???"` produce the empty slug —
the end-to-end create succeeds and stores a product whose slug is `""`. -/
theorem slug_empty_after_save_possible :
    punkBrand.name = "!!!"
    ∧ punkReq.model_name = "???"
    ∧ exceptIsError ((baseProductCreateView 5 punkReq) punkStore).1 = false
    ∧ ((baseProductCreateView 5 punkReq) punkStore).2.products.map BaseProduct.slug = [""] :=
  ⟨rfl, rfl, by decide, by decide⟩

/-- C10 (amended): after save the slug is unchanged whenever one was
already present (in particular re-saving never alters an existing
slug), and otherwise becomes `slugify(brand.name + "-" + model_name)` —
which is non-empty precisely when the brand name or the model name
contributes at least one ASCII alphanumeric character (an
all-punctuation pair yields an empty slug). -/
theorem slug_derivation_amended_spec :
    (∀ (brandName : String) (p : BaseProduct), p.slug ≠ "" → p.deriveSlug brandName = p)
    ∧ (∀ (brandName : String) (p : BaseProduct), p.slug = "" →
        (p.deriveSlug brandName).slug = slugify (brandName ++ "-" ++ p.model_name))
    ∧ (∀ s : String, slugify s ≠ "" ↔ ∃ c ∈ s.data, isAsciiAlnum c = true) := by
  refine ⟨?_, ?_, slugify_ne_empty_iff⟩
  · intro bn p h
    unfold BaseProduct.deriveSlug
    rw [if_neg h]
  · intro bn p h
    unfold BaseProduct.deriveSlug
    rw [if_pos h]

/-- Witness for C10 (amended) at concrete inputs: an already-slugged
product is untouched by save, a slug-less product gets the derived
slug, and the derived slug of an alphanumeric-bearing name pair is
non-empty. -/
theorem slug_derivation_amended_spec_witness :
    sampleProduct.deriveSlug "Asus" = sampleProduct
    ∧ (BaseProduct.deriveSlug "Asus" { sampleProduct with slug := "" }).slug =
        slugify ("Asus" ++ "-" ++ sampleProduct.model_name)
    ∧ slugify "Asus-LOQ 15" ≠ "" :=
  ⟨slug_derivation_amended_spec.1 "Asus" sampleProduct (by decide),
   slug_derivation_amended_spec.2.1 "Asus" { sampleProduct with slug := "" } rfl,
   (slug_derivation_amended_spec.2.2 "Asus-LOQ 15").mpr ⟨'A', by decide, by decide⟩⟩

/-- Toggling `active` and re-running `Brand.save` leaves the slug as it
was, provided an empty stored slug could only re-derive to empty. -/
theorem brandDeriveSlugToggleAux (b : Brand) (h : b.slug = "" → slugify b.name = "")
    (fl : Bool) :
    Brand.deriveSlug { b with active := fl } = { b with active := fl } := by
  obtain ⟨i, n, s, a⟩ := b
  unfold Brand.deriveSlug
  simp only at h ⊢
  by_cases hs : s = ""
  · subst hs
    simp [h rfl]
  · simp [hs]

/-- `Category.save` analogue of `brandDeriveSlugToggleAux`. -/
theorem categoryDeriveSlugToggleAux (c : Category)
    (h : c.slug = "" → slugify c.name = "") (fl : Bool) :
    Category.deriveSlug { c with active := fl } = { c with active := fl } := by
  obtain ⟨i, n, s, d, a⟩ := c
  unfold Category.deriveSlug
  simp only at h ⊢
  by_cases hs : s = ""
  · subst hs
    simp [h rfl]
  · simp [hs]

/-- `BaseProduct.save` analogue of `brandDeriveSlugToggleAux`. -/
theorem productDeriveSlugToggleAux (bn : String) (p : BaseProduct)
    (h : p.slug = "" → slugify (bn ++ "-" ++ p.model_name) = "") (fl : Bool) :
    BaseProduct.deriveSlug bn { p with active := fl } = { p with active := fl } := by
  obtain ⟨i, mn, s, ld, bi, ci, sp, um, a⟩ := p
  unfold BaseProduct.deriveSlug
  simp only at h ⊢
  by_cases hs : s = ""
  · subst hs
    simp [h rfl]
  · simp [hs]

/-- Saving a brand with only its `active` flag changed succeeds (no
slug collision can arise) and rewrites exactly that row. -/
theorem brandSaveToggleAux (st : Store) (b : Brand) (hmem : b ∈ st.brands)
    (hn : (st.brands.map Brand.slug).Nodup)
    (h : b.slug = "" → slugify b.name = "") (fl : Bool) :
    st.brandSaveExisting { b with active := fl } =
      Except.ok
        { st with
          brands :=
            st.brands.map (fun x => if x.id == b.id then { b with active := fl } else x) } := by
  unfold Store.brandSaveExisting
  rw [brandDeriveSlugToggleAux b h fl]
  have hany : st.brands.any
      (fun x => x.id != ({ b with active := fl } : Brand).id &&
        x.slug == ({ b with active := fl } : Brand).slug) = false := by
    rw [List.any_eq_false]
    intro x hx
    by_cases hs : x.slug = b.slug
    · have hxb : x = b := List.inj_on_of_nodup_map hn hx hmem hs
      subst hxb
      simp
    · simp [hs]
  rw [hany]
  rfl

/-- Category analogue of `brandSaveToggleAux`. -/
theorem categorySaveToggleAux (st : Store) (c : Category) (hmem : c ∈ st.categories)
    (hn : (st.categories.map Category.slug).Nodup)
    (h : c.slug = "" → slugify c.name = "") (fl : Bool) :
    st.categorySaveExisting { c with active := fl } =
      Except.ok
        { st with
          categories :=
            st.categories.map (fun x => if x.id == c.id then { c with active := fl } else x) } := by
  unfold Store.categorySaveExisting
  rw [categoryDeriveSlugToggleAux c h fl]
  have hany : st.categories.any
      (fun x => x.id != ({ c with active := fl } : Category).id &&
        x.slug == ({ c with active := fl } : Category).slug) = false := by
    rw [List.any_eq_false]
    intro x hx
    by_cases hs : x.slug = c.slug
    · have hxc : x = c := List.inj_on_of_nodup_map hn hx hmem hs
      subst hxc
      simp
    · simp [hs]
  rw [hany]
  rfl

/-- Base-product analogue of `brandSaveToggleAux`. -/
theorem productSaveToggleAux (st : Store) (p : BaseProduct) (hmem : p ∈ st.products)
    (hn : (st.products.map BaseProduct.slug).Nodup)
    (h : p.slug = "" → slugify (st.brandNameOf p ++ "-" ++ p.model_name) = "") (fl : Bool) :
    st.productSaveExisting { p with active := fl } =
      Except.ok
        { st with
          products :=
            st.products.map (fun x => if x.id == p.id then { p with active := fl } else x) } := by
  unfold Store.productSaveExisting
  have hbn : st.brandNameOf { p with active := fl } = st.brandNameOf p := rfl
  rw [hbn, productDeriveSlugToggleAux (st.brandNameOf p) p h fl]
  have hany : st.products.any
      (fun x => x.id != ({ p with active := fl } : BaseProduct).id &&
        x.slug == ({ p with active := fl } : BaseProduct).slug) = false := by
    rw [List.any_eq_false]
    intro x hx
    by_cases hs : x.slug = p.slug
    · have hxp : x = p := List.inj_on_of_nodup_map hn hx hmem hs
      subst hxp
      simp
    · simp [hs]
  rw [hany]
  rfl

/-- C7: for each of the four resources, invoking activate on an
already-active record (or deactivate on an already-inactive one)
returns the 400 conflict response with its explanatory message and
leaves the store — the record included — untouched; when the flag
differs, the stored record is rewritten with only its `active` flag
flipped.  (The store hypotheses say ids resolve to a stored row, stored
slugs are unique, and a stored empty slug cannot re-derive to a
non-empty one — invariants every reachable store satisfies.)  For
variants the flag still flips and persists, but serializing the
success response fails with the `is_published` configuration error, so
the caller sees a server error rather than the success message. -/
theorem toggle_views_spec (st : Store) (pk : Nat) :
    (∀ b : Brand, st.brands.find? (fun x => x.id == pk) = some b →
       (b.active = true →
          brandActivateView st pk = (ApiResp.badRequest "Brand is already active", st))
       ∧ (b.active = false → (st.brands.map Brand.slug).Nodup →
            (b.slug = "" → slugify b.name = "") →
            brandActivateView st pk =
              (ApiResp.ok "Brand activated successfully",
               { st with
                 brands := st.brands.map
                   (fun x => if x.id == pk then { b with active := true } else x) }))
       ∧ (b.active = false →
            brandDeactivateView st pk = (ApiResp.badRequest "Brand is already inactive", st))
       ∧ (b.active = true → (st.brands.map Brand.slug).Nodup →
            (b.slug = "" → slugify b.name = "") →
            brandDeactivateView st pk =
              (ApiResp.ok "Brand deactivated successfully",
               { st with
                 brands := st.brands.map
                   (fun x => if x.id == pk then { b with active := false } else x) })))
    ∧ (∀ c : Category, st.categories.find? (fun x => x.id == pk) = some c →
       (c.active = true →
          categoryActivateView st pk = (ApiResp.badRequest "Category is already active", st))
       ∧ (c.active = false → (st.categories.map Category.slug).Nodup →
            (c.slug = "" → slugify c.name = "") →
            categoryActivateView st pk =
              (ApiResp.ok "Category activated successfully",
               { st with
                 categories := st.categories.map
                   (fun x => if x.id == pk then { c with active := true } else x) }))
       ∧ (c.active = false →
            categoryDeactivateView st pk = (ApiResp.badRequest "Category is already inactive", st))
       ∧ (c.active = true → (st.categories.map Category.slug).Nodup →
            (c.slug = "" → slugify c.name = "") →
            categoryDeactivateView st pk =
              (ApiResp.ok "Category deactivated successfully",
               { st with
                 categories := st.categories.map
                   (fun x => if x.id == pk then { c with active := false } else x) })))
    ∧ (∀ p : BaseProduct, st.products.find? (fun x => x.id == pk) = some p →
       (p.active = true →
          baseProductActivateView st pk = (ApiResp.badRequest "Product is already active", st))
       ∧ (p.active = false → (st.products.map BaseProduct.slug).Nodup →
            (p.slug = "" → slugify (st.brandNameOf p ++ "-" ++ p.model_name) = "") →
            baseProductActivateView st pk =
              (ApiResp.ok "Product activated successfully",
               { st with
                 products := st.products.map
                   (fun x => if x.id == pk then { p with active := true } else x) }))
       ∧ (p.active = false →
            baseProductDeactivateView st pk = (ApiResp.badRequest "Product is already inactive", st))
       ∧ (p.active = true → (st.products.map BaseProduct.slug).Nodup →
            (p.slug = "" → slugify (st.brandNameOf p ++ "-" ++ p.model_name) = "") →
            baseProductDeactivateView st pk =
              (ApiResp.ok "Product deactivated successfully",
               { st with
                 products := st.products.map
                   (fun x => if x.id == pk then { p with active := false } else x) })))
    ∧ (∀ v : ProductVariant, st.variants.find? (fun x => x.id == pk) = some v →
       (v.active = true →
          productVariantActivateView st pk =
            (ApiResp.badRequest "Product variant is already active", st))
       ∧ (v.active = false →
            productVariantActivateView st pk =
              (ApiResp.serverError
                 (DbError.improperlyConfigured "Field name is not valid for model"),
               { st with
                 variants := st.variants.map
                   (fun x => if x.id == pk then { v with active := true } else x) }))
       ∧ (v.active = false →
            productVariantDeactivateView st pk =
              (ApiResp.badRequest "Product variant is already inactive", st))
       ∧ (v.active = true →
            productVariantDeactivateView st pk =
              (ApiResp.serverError
                 (DbError.improperlyConfigured "Field name is not valid for model"),
               { st with
                 variants := st.variants.map
                   (fun x => if x.id == pk then { v with active := false } else x) }))) := by
  refine ⟨?_, ?_, ?_, ?_⟩
  · intro b hfind
    have hmem : b ∈ st.brands := List.mem_of_find?_eq_some hfind
    have hid : b.id = pk := by
      have := List.find?_some hfind
      simpa using this
    subst hid
    refine ⟨?_, ?_, ?_, ?_⟩
    · intro hact
      unfold brandActivateView
      rw [hfind]
      simp [hact]
    · intro hact hn h
      unfold brandActivateView
      rw [hfind]
      simp only [hact, Bool.false_eq_true, if_false]
      rw [brandSaveToggleAux st b hmem hn h true]
      rfl
    · intro hact
      unfold brandDeactivateView
      rw [hfind]
      simp [hact]
    · intro hact hn h
      unfold brandDeactivateView
      rw [hfind]
      simp only [hact, Bool.not_true, Bool.false_eq_true, if_false]
      rw [brandSaveToggleAux st b hmem hn h false]
      rfl
  · intro c hfind
    have hmem : c ∈ st.categories := List.mem_of_find?_eq_some hfind
    have hid : c.id = pk := by
      have := List.find?_some hfind
      simpa using this
    subst hid
    refine ⟨?_, ?_, ?_, ?_⟩
    · intro hact
      unfold categoryActivateView
      rw [hfind]
      simp [hact]
    · intro hact hn h
      unfold categoryActivateView
      rw [hfind]
      simp only [hact, Bool.false_eq_true, if_false]
      rw [categorySaveToggleAux st c hmem hn h true]
      rfl
    · intro hact
      unfold categoryDeactivateView
      rw [hfind]
      simp [hact]
    · intro hact hn h
      unfold categoryDeactivateView
      rw [hfind]
      simp only [hact, Bool.not_true, Bool.false_eq_true, if_false]
      rw [categorySaveToggleAux st c hmem hn h false]
      rfl
  · intro p hfind
    have hmem : p ∈ st.products := List.mem_of_find?_eq_some hfind
    have hid : p.id = pk := by
      have := List.find?_some hfind
      simpa using this
    subst hid
    refine ⟨?_, ?_, ?_, ?_⟩
    · intro hact
      unfold baseProductActivateView
      rw [hfind]
      simp [hact]
    · intro hact hn h
      unfold baseProductActivateView
      rw [hfind]
      simp only [hact, Bool.false_eq_true, if_false]
      rw [productSaveToggleAux st p hmem hn h true]
      rfl
    · intro hact
      unfold baseProductDeactivateView
      rw [hfind]
      simp [hact]
    · intro hact hn h
      unfold baseProductDeactivateView
      rw [hfind]
      simp only [hact, Bool.not_true, Bool.false_eq_true, if_false]
      rw [productSaveToggleAux st p hmem hn h false]
      rfl
  · intro v hfind
    have hid : v.id = pk := by
      have := List.find?_some hfind
      simpa using this
    subst hid
    refine ⟨?_, ?_, ?_, ?_⟩
    · intro hact
      unfold productVariantActivateView
      rw [hfind]
      simp [hact]
    · intro hact
      unfold productVariantActivateView
      rw [hfind]
      simp only [hact, Bool.false_eq_true, if_false]
      rfl
    · intro hact
      unfold productVariantDeactivateView
      rw [hfind]
      simp [hact]
    · intro hact
      unfold productVariantDeactivateView
      rw [hfind]
      simp only [hact, Bool.not_true, Bool.false_eq_true, if_false]
      rfl

/-- Witness for C7 on the sample store: activating the already-active
brand 1 conflicts and changes nothing; deactivating it flips only its
flag; activating the already-active variant 3 conflicts. -/
theorem toggle_views_spec_witness :
    brandActivateView sampleStore 1 = (ApiResp.badRequest "Brand is already active", sampleStore)
    ∧ brandDeactivateView sampleStore 1 =
        (ApiResp.ok "Brand deactivated successfully",
         { sampleStore with
           brands := sampleStore.brands.map
             (fun x => if x.id == 1 then { sampleBrand with active := false } else x) })
    ∧ productVariantActivateView sampleStore 3 =
        (ApiResp.badRequest "Product variant is already active", sampleStore) :=
  ⟨((toggle_views_spec sampleStore 1).1 sampleBrand rfl).1 rfl,
   ((toggle_views_spec sampleStore 1).1 sampleBrand rfl).2.2.2 rfl (by decide) (by decide),
   ((toggle_views_spec sampleStore 3).2.2.2 sampleVariant rfl).1 rfl⟩

end GamingStore
